import Mathlib

/-
Verification of the boostbox disk-cleaner core: a shallow embedding of
src/modules/scanner.py, src/modules/optimizer.py and src/modules/cleaner.py.

Modelling conventions, used throughout:
- A filesystem path is a list of characters (the Python str).  All paths in
  play are absolute and normalized, so os.path.abspath is the identity on
  them and is not re-applied; os.sep is '/'.
- Python sets of paths are modelled as lists (membership is all that the
  code ever uses).
- Filesystem reads are explicit parameters: os.stat is an optional
  (mtime, size) pair (none = the call raised), os.path.getmtime /
  os.path.getsize are optional ints, os.path.exists is membership in an
  explicit list of existing paths, and the directory layout seen by os.walk
  is an explicit tree.  time.time() is a parameter now; one value is used
  for a whole pass.
- Fallible external actions (send2trash, os.remove) are oracles returning
  none on success and some message when they raise.
-/

namespace BoostBox

abbrev FPath := List Char

def str (s : String) : FPath := s.toList

/-- os.sep on the modelled (Unix-style) platform. -/
def osSep : FPath := str "/"

/-- Scanner.junk_extensions (scanner.py lines 11-14). -/
def junk_extensions : List FPath :=
  [str ".tmp", str ".log", str ".bak", str ".old", str ".crdownload", str ".part",
   str ".cache", str ".swp", str ".~", str ".trashinfo"]

/-- Scanner.potentially_dangerous_extensions (scanner.py lines 16-18). -/
def potentially_dangerous_extensions : List FPath :=
  [str ".exe", str ".msi", str ".bat", str ".cmd", str ".ps1", str ".vbs",
   str ".scr", str ".jar", str ".apk", str ".dmg", str ".pkg"]

/-- Scanner.suspicious_script_extensions (scanner.py line 20). -/
def suspicious_script_extensions : List FPath :=
  [str ".sh", str ".py", str ".pl", str ".rb"]

/-- The five category keys of Scanner._found (scanner.py lines 29-35):
the fixed category enumeration of the report. -/
def fixedCategories : List String :=
  ["junk", "large", "suspicious", "harmful", "skipped"]

namespace Scanner

/-- Scanner._is_under_whitelist (scanner.py lines 131-143): the path equals a
whitelist entry or starts with the entry followed by os.sep.  The input path
is absolute and normalized, so the os.path.abspath call is the identity; its
except-branch (return True) is unreachable in the model because abspath and
string comparison are total here. -/
def is_under_whitelist (whitelist_paths : List FPath) (path : FPath) : Bool :=
  whitelist_paths.any (fun p => path == p || List.isPrefixOf (p ++ osSep) path)

/-- Truth value of the Python expression os.path.commonpath([f, d]) == d for
absolute normalized paths: d is the filesystem root (the common path of two
absolute paths always contains the root), or f equals d, or f lies strictly
below d (d followed by a separator is a prefix of f). -/
def commonpath_eq (f d : FPath) : Bool :=
  if d == osSep then true
  else f == d || List.isPrefixOf (d ++ osSep) f

/-- The final component of a path: everything after the last '/'
(pathlib PurePath.name for a file path). -/
def lastComponent (p : FPath) : FPath :=
  (p.reverse.takeWhile (fun c => c ≠ '/')).reverse

/-- pathlib PurePath.suffix of a file name: the part of the name from its
last dot onwards, empty when the name has no dot, when the dot is the last
character, or when the only dot is at position 0 (hidden files). -/
def suffixOf (nm : FPath) : FPath :=
  let after := nm.reverse.takeWhile (fun c => c ≠ '.')
  if after.length = nm.length then []
  else if after.length = 0 then []
  else if nm.length = after.length + 1 then []
  else '.' :: after.reverse

/-- Path(file_path).suffix.lower() as used by Scanner._classify_file
(scanner.py line 164). -/
def suffixLower (p : FPath) : FPath :=
  (suffixOf (lastComponent p)).map Char.toLower

/-- Python truthiness of the optional integer size_threshold_bytes:
None and 0 are falsy, every other integer is truthy. -/
def truthy (n : Option Int) : Bool :=
  match n with
  | none => false
  | some v => v ≠ 0

/-- The recency guard of Scanner._classify_file (scanner.py line 161):
age_seconds is not None and (time.time() - mtime) < age_seconds. -/
def ageGuard (age_seconds : Option Int) (now mtime : Int) : Bool :=
  match age_seconds with
  | none => false
  | some a => decide (now - mtime < a)

/-- The per-OS directory catalog a Scanner instance carries
(temp_dirs, browser_cache_dirs, download_dirs, whitelist_paths). -/
structure ScanConfig where
  whitelist_paths : List FPath
  temp_dirs : List FPath
  browser_cache_dirs : List FPath
  download_dirs : List FPath

/-- Scanner._classify_file (scanner.py lines 145-198).  The os.stat result is
the explicit parameter st; none means the stat call raised, in which case the
except-branch returns the string "skip". -/
def classify_file (cfg : ScanConfig) (now : Int) (st : Option (Int × Int))
    (file_path : FPath) (age_seconds : Option Int) (size_threshold_bytes : Option Int) :
    Option String :=
  match st with
  | none => some "skip"
  | some (mtime, size) =>
    if is_under_whitelist cfg.whitelist_paths file_path then some "skipped"
    else if ageGuard age_seconds now mtime then none
    else
      let sfx := suffixLower file_path
      if sfx ∈ potentially_dangerous_extensions then
        (if (cfg.download_dirs ++ cfg.temp_dirs).any (fun d => commonpath_eq file_path d)
         then some "harmful" else some "skipped")
      else if sfx ∈ suspicious_script_extensions then
        (if (cfg.download_dirs ++ cfg.temp_dirs).any (fun d => commonpath_eq file_path d)
         then some "suspicious" else none)
      else if sfx ∈ junk_extensions then
        (if truthy size_threshold_bytes && decide (size < size_threshold_bytes.getD 0)
         then none else some "junk")
      else if truthy size_threshold_bytes &&
          decide (size ≥ max (size_threshold_bytes.getD 0) (20 * 1024 * 1024)) then
        (if (cfg.download_dirs ++ cfg.temp_dirs).any (fun d => commonpath_eq file_path d)
         then some "large"
         else if cfg.browser_cache_dirs.any (fun d => commonpath_eq file_path d)
         then some "junk"
         else none)
      else none

end Scanner

/-- A Linux-shaped ScanConfig for concrete instances: the Unix whitelist from
Scanner._get_whitelist_paths and the Linux rows of the directory tables, with
the home directory at /home/user. -/
def demoCfg : Scanner.ScanConfig where
  whitelist_paths :=
    [str "/", str "/bin", str "/sbin", str "/usr", str "/usr/bin", str "/usr/sbin",
     str "/lib", str "/lib64", str "/etc", str "/var"]
  temp_dirs := [str "/tmp", str "/home/user/.cache"]
  browser_cache_dirs :=
    [str "/home/user/.cache/google-chrome", str "/home/user/.cache/chromium",
     str "/home/user/.cache/mozilla"]
  download_dirs := [str "/home/user/Downloads"]

namespace Scanner

/-- A directory entry as seen by os.walk: a plain file or a subdirectory
with its own entries. -/
inductive FSTree where
  | file (nm : FPath)
  | dir (nm : FPath) (children : List FSTree)

/-- The file paths of the plain-file entries of one directory (the files
component of one os.walk triple), joined to the directory's path. -/
def directFiles (base : FPath) (entries : List FSTree) : List FPath :=
  entries.filterMap (fun t => match t with
    | FSTree.file n => some (base ++ '/' :: n)
    | FSTree.dir _ _ => none)

/-- File paths contributed by the subdirectory entries of a directory, in
os.walk top-down order: each subdirectory yields its own files first, then
its subdirectories' files, before the walk moves to the next sibling. -/
def walkSubdirs : FPath → List FSTree → List FPath
  | _, [] => []
  | base, FSTree.file _ :: ts => walkSubdirs base ts
  | base, FSTree.dir n cs :: ts =>
      (directFiles (base ++ '/' :: n) cs ++ walkSubdirs (base ++ '/' :: n) cs)
        ++ walkSubdirs base ts

/-- All file paths os.walk(base) yields for a directory with the given
entries, in visit order: the directory's own files, then the recursive walk
of each subdirectory.  No subtree is pruned: scanner.py line 210 never
modifies the dirs list of the walk. -/
def walkTree (base : FPath) (entries : List FSTree) : List FPath :=
  directFiles base entries ++ walkSubdirs base entries

/-- The files Scanner._walk_and_collect passes to _classify_file: every file
under every scanned folder (a folder is its path with its entries; folders
are pre-filtered to existing ones, scanner.py line 208). -/
def visitedFiles (folders : List (FPath × List FSTree)) : List FPath :=
  folders.foldr (fun fl acc => walkTree fl.1 fl.2 ++ acc) []

/-- The Scanner._found dictionary: category name to stored path list. -/
abbrev Found := List (String × List FPath)

/-- Scanner._found as (re)initialised in __init__ and scan_all: the five
fixed categories, each empty. -/
def initFound : Found :=
  [("junk", []), ("large", []), ("suspicious", []), ("harmful", []), ("skipped", [])]

/-- Dictionary read self._found.get(cat): the stored list of a category. -/
def lookupFound (fnd : Found) (c : String) : Option (List FPath) :=
  (fnd.find? (fun e => e.1 == c)).map (fun e => e.2)

/-- Dictionary update self._found[cat].append(x). -/
def appendFound (fnd : Found) (c : String) (x : FPath) : Found :=
  fnd.map (fun e => if e.1 == c then (e.1, e.2 ++ [x]) else e)

/-- category_limits.get(cat): the configured cap of a category, if any. -/
def limFor (category_limits : List (String × Int)) (c : String) : Option Int :=
  (category_limits.find? (fun e => e.1 == c)).map (fun e => e.2)

/-- The slot-creating step of _walk_and_collect (scanner.py lines 219-220):
if cat not in self._found, add an empty list under that key. -/
def ensureKey (fnd : Found) (cat : String) : Found :=
  if (lookupFound fnd cat).isSome then fnd else fnd ++ [(cat, [])]

/-- The cap test of _walk_and_collect (scanner.py line 221):
category_limits.get(cat) is truthy and the stored list has reached it. -/
def capReached (category_limits : List (String × Int)) (fnd : Found) (cat : String) : Bool :=
  match limFor category_limits cat with
  | some v => v ≠ 0 && decide ((((lookupFound fnd cat).getD []).length : Int) ≥ v)
  | none => false

/-- The storage step of _walk_and_collect (scanner.py lines 218-224) for a
classified file: create the category slot when missing, then append the path
unless the cap is already reached. -/
def store_file (category_limits : List (String × Int)) (fnd : Found)
    (cat : String) (f : FPath) : Found :=
  if capReached category_limits (ensureKey fnd cat) cat then ensureKey fnd cat
  else appendFound (ensureKey fnd cat) cat f

/-- The loop body of Scanner._walk_and_collect (scanner.py lines 211-224)
for one file: classify it and store it under its category, if any.  The
try-except around the classify call cannot fire here because the embedded
classify_file is total. -/
def collect_file (cfg : ScanConfig) (now : Int) (statOf : FPath → Option (Int × Int))
    (age_seconds size_threshold_bytes : Option Int)
    (category_limits : List (String × Int)) (fnd : Found) (f : FPath) : Found :=
  match classify_file cfg now (statOf f) f age_seconds size_threshold_bytes with
  | none => fnd
  | some cat => store_file category_limits fnd cat f

/-- Scanner._walk_and_collect (scanner.py lines 200-224): fold the per-file
collection over every file the walk visits, starting from the freshly reset
_found of scan_all. -/
def walk_and_collect (cfg : ScanConfig) (now : Int) (statOf : FPath → Option (Int × Int))
    (age_seconds size_threshold_bytes : Option Int)
    (category_limits : List (String × Int))
    (folders : List (FPath × List FSTree)) : Found :=
  (visitedFiles folders).foldl
    (collect_file cfg now statOf age_seconds size_threshold_bytes category_limits) initFound

end Scanner

/-- The raw Unix whitelist literals of Scanner._get_whitelist_paths and
Optimizer._get_whitelist_paths (identical sets, scanner.py lines 123-128 and
optimizer.py lines 34-36), with the two macOS additions switched by the
platform test. -/
def configured_unix_whitelist (darwin : Bool) : List FPath :=
  [str "/", str "/bin", str "/sbin", str "/usr", str "/usr/bin", str "/usr/sbin",
   str "/lib", str "/lib64", str "/etc", str "/var"]
    ++ (if darwin then [str "/System", str "/Applications"] else [])

/-- Scanner._get_whitelist_paths result on Unix (scanner.py line 129):
every truthy (non-empty) configured path, passed through os.path.abspath,
which is the identity on these absolute normalized literals.  There is no
existence filter. -/
def scanner_whitelist (darwin : Bool) : List FPath :=
  (configured_unix_whitelist darwin).filter (fun p => p ≠ [])

/-- Optimizer._get_whitelist_paths result on Unix (optimizer.py line 37):
the configured paths filtered by os.path.exists, modelled by the explicit
predicate existsOn. -/
def optimizer_whitelist (darwin : Bool) (existsOn : FPath → Bool) : List FPath :=
  (configured_unix_whitelist darwin).filter existsOn

/-- An absolute normalized Unix path: the root itself, or a leading slash
followed by nonempty components none of which is a dot or a double dot,
with no trailing or repeated slash. -/
def isNormalizedAbs (p : FPath) : Bool :=
  p == str "/" ||
  (match p with
   | '/' :: rest =>
       rest ≠ [] && (rest.splitOn '/').all (fun c => c ≠ [] && c ≠ str "." && c ≠ str "..")
   | _ => false)

namespace Optimizer

/-- Optimizer._is_safe_path (optimizer.py lines 55-60): true when the path
matches no whitelist entry (abspath again elided on absolute normalized
input). -/
def is_safe_path (whitelist_paths : List FPath) (path : FPath) : Bool :=
  whitelist_paths.all (fun p => !(path == p || List.isPrefixOf (p ++ osSep) path))

/-- One file met during the optimize_disk walk: its path and the results of
os.path.getmtime and os.path.getsize on it (none = the call raised). -/
structure FileRec where
  path : FPath
  mtime : Option Int
  size : Option Int

/-- The guard sequence of the optimize_disk loop body (optimizer.py lines
98-110) for one file: the conjunction of passing the safety check, a
readable mtime at least age_seconds old, the small-file gate when
delete_small_files is off, and a successful os.remove (removeOk; a raising
remove is caught and the file is not recorded). -/
def removeDecision (whitelist_paths : List FPath) (now age_seconds : Int)
    (delete_small_files : Bool) (removeOk : FPath → Bool) (r : FileRec) : Bool :=
  is_safe_path whitelist_paths r.path &&
  (match r.mtime with
   | none => false
   | some m =>
     !(decide (now - m < age_seconds)) &&
     (if !delete_small_files then
        match r.size with
        | none => false
        | some sz => !(decide (sz < 1024)) && removeOk r.path
      else removeOk r.path))

/-- Optimizer.optimize_disk (optimizer.py lines 85-111): walk the temp
directories (the walk result is the explicit files list, in visit order) and
remove each file passing every guard, returning the removed paths in
order. -/
def optimize_disk (whitelist_paths : List FPath) (now max_age_days : Int)
    (delete_small_files : Bool) (removeOk : FPath → Bool)
    (files : List FileRec) : List FPath :=
  (files.filter
      (removeDecision whitelist_paths now (max_age_days * 86400) delete_small_files removeOk)).map
    (fun r => r.path)

end Optimizer

namespace Cleaner

/-- Success or failure of the external removal calls for one path: none is
success, some msg is a raised exception with its stringified message. -/
structure RemovalOracle where
  trashRaises : FPath → Option String
  deleteRaises : FPath → Option String

/-- The dry-run action string of Cleaner.clean_paths (cleaner.py line 175):
trashed if send2trash is available, else deleted if force, else
would_delete_but_no_trash. -/
def action_for (use_trash force : Bool) : String :=
  if use_trash then "trashed" else if force then "deleted" else "would_delete_but_no_trash"

/-- Effect of removing path p (to trash, or permanently with its whole
subtree): p and everything below it stop existing. -/
def removeTree (p : FPath) (fs : List FPath) : List FPath :=
  fs.filter (fun q => !(q == p || List.isPrefixOf (p ++ osSep) q))

/-- The single outcome one path receives in clean_paths: an action appended
to results, or a message appended to errors. -/
inductive Outcome where
  | ok (action : String)
  | err (msg : String)

/-- The loop body of Cleaner.clean_paths (cleaner.py lines 167-199) for one
path: the existence check, the dry-run report, the send2trash attempt, the
forced permanent delete, or the fail-closed error; paired with the
filesystem state after the step.  A raising removal call is caught and
recorded with its message (cleaner.py line 198); the filesystem is left as
it was in that case. -/
def clean_step (use_trash : Bool) (oc : RemovalOracle) (dry_run force : Bool)
    (fs : List FPath) (p : FPath) : Outcome × List FPath :=
  if !(fs.contains p) then (Outcome.err "NotFound", fs)
  else if dry_run then (Outcome.ok (action_for use_trash force), fs)
  else if use_trash then
    match oc.trashRaises p with
    | none => (Outcome.ok "trashed", removeTree p fs)
    | some e => (Outcome.err e, fs)
  else if force then
    match oc.deleteRaises p with
    | none => (Outcome.ok "deleted", removeTree p fs)
    | some e => (Outcome.err e, fs)
  else (Outcome.err "send2trash_not_available", fs)

/-- Cleaner.clean_paths (cleaner.py lines 152-201): process every path in
order, threading the filesystem state, and return the results list, the
errors list, and the final filesystem. -/
def clean_paths (use_trash : Bool) (oc : RemovalOracle) (dry_run force : Bool) :
    List FPath → List FPath →
    List (FPath × String) × List (FPath × String) × List FPath
  | fs, [] => ([], [], fs)
  | fs, p :: ps =>
    match clean_step use_trash oc dry_run force fs p with
    | (Outcome.ok a, fs1) =>
      match clean_paths use_trash oc dry_run force fs1 ps with
      | (r, e, fs2) => ((p, a) :: r, e, fs2)
    | (Outcome.err m, fs1) =>
      match clean_paths use_trash oc dry_run force fs1 ps with
      | (r, e, fs2) => (r, (p, m) :: e, fs2)

end Cleaner

/-- A file with readable metadata whose path passes the whitelist test is
always classified skipped, before any other rule is consulted. -/
lemma classify_whitelisted (cfg : Scanner.ScanConfig) (now mtime size : Int) (P : FPath)
    (age_seconds size_threshold_bytes : Option Int)
    (h : Scanner.is_under_whitelist cfg.whitelist_paths P = true) :
    Scanner.classify_file cfg now (some (mtime, size)) P age_seconds size_threshold_bytes
      = some "skipped" := by
  simp [Scanner.classify_file, h]

/-- C1: Whitelist supremacy.  For every file path P with readable metadata,
if P equals a whitelist entry or starts with that entry followed by the path
separator, then Scanner._classify_file returns skipped, for every age and
size threshold and regardless of extension, age or size. -/
theorem C1_whitelist_supremacy (cfg : Scanner.ScanConfig) (now mtime size : Int)
    (P w : FPath) (age_seconds size_threshold_bytes : Option Int)
    (hw : w ∈ cfg.whitelist_paths)
    (hmatch : P = w ∨ List.isPrefixOf (w ++ osSep) P = true) :
    Scanner.classify_file cfg now (some (mtime, size)) P age_seconds size_threshold_bytes
      = some "skipped" := by
  apply classify_whitelisted
  unfold Scanner.is_under_whitelist
  rw [List.any_eq_true]
  refine ⟨w, hw, ?_⟩
  rcases hmatch with h | h <;> simp [h]

/-- Witness for C1 at /etc/hosts under whitelist entry /etc. -/
theorem C1_witness :
    str "/etc" ∈ demoCfg.whitelist_paths ∧
    Scanner.classify_file demoCfg 1000 (some (0, 5)) (str "/etc/hosts")
      (some 86400) (some 1024) = some "skipped" :=
  ⟨by decide,
   C1_whitelist_supremacy demoCfg 1000 0 5 (str "/etc/hosts") (str "/etc")
     (some 86400) (some 1024) (by decide) (Or.inr (by decide))⟩

/-- C4: files whose metadata cannot be read are classified with the string
"skip", which is not the category "skipped" and lies outside the fixed
five-category enumeration of Scanner._found; the error itself is swallowed
(the embedded function is total and returns a value on the failure input).
This contradicts the specified behaviour (treated as skipped). -/
theorem C4_stat_error_yields_skip :
    (∀ (cfg : Scanner.ScanConfig) (now : Int) (P : FPath)
        (age_seconds size_threshold_bytes : Option Int),
      Scanner.classify_file cfg now none P age_seconds size_threshold_bytes = some "skip") ∧
    "skip" ∉ fixedCategories ∧ "skip" ≠ "skipped" :=
  ⟨fun _ _ _ _ _ => rfl, by decide, by decide⟩

/-- C8: Dangerous-extension rule.  A non-whitelisted file with readable
metadata that passes the age gate and has a dangerous lower-cased extension
is classified harmful when it lies inside a download or temp directory, and
skipped otherwise. -/
theorem C8_dangerous_extension_rule (cfg : Scanner.ScanConfig) (now mtime size : Int)
    (P : FPath) (age_seconds size_threshold_bytes : Option Int)
    (hwl : Scanner.is_under_whitelist cfg.whitelist_paths P = false)
    (hage : Scanner.ageGuard age_seconds now mtime = false)
    (hsfx : Scanner.suffixLower P ∈ potentially_dangerous_extensions) :
    Scanner.classify_file cfg now (some (mtime, size)) P age_seconds size_threshold_bytes
      = some (if (cfg.download_dirs ++ cfg.temp_dirs).any
                  (fun d => Scanner.commonpath_eq P d)
              then "harmful" else "skipped") := by
  simp only [Scanner.classify_file, hwl, hage, Bool.false_eq_true, if_false]
  rw [if_pos hsfx]
  split <;> rfl

/-- Witness for C8: setup.exe aged ten days is harmful in Downloads and
skipped at /opt/tools. -/
theorem C8_witness :
    Scanner.classify_file demoCfg 864000 (some (0, 2048))
      (str "/home/user/Downloads/setup.exe") (some 86400) (some 1024) = some "harmful" ∧
    Scanner.classify_file demoCfg 864000 (some (0, 2048))
      (str "/opt/tools/setup.exe") (some 86400) (some 1024) = some "skipped" := by
  constructor
  · rw [C8_dangerous_extension_rule demoCfg 864000 0 2048 (str "/home/user/Downloads/setup.exe")
      (some 86400) (some 1024) (by decide) (by decide) (by decide)]
    decide
  · rw [C8_dangerous_extension_rule demoCfg 864000 0 2048 (str "/opt/tools/setup.exe")
      (some 86400) (some 1024) (by decide) (by decide) (by decide)]
    decide

/-- C3: optimize_disk only removes whitelist-safe, old-enough files: every
returned path comes from a walked file record that passes _is_safe_path and
whose readable modification time is at least max_age_days * 86400 seconds
before now. -/
theorem C3_optimize_disk_safety (whitelist_paths : List FPath) (now max_age_days : Int)
    (delete_small_files : Bool) (removeOk : FPath → Bool)
    (files : List Optimizer.FileRec) (p : FPath)
    (hp : p ∈ Optimizer.optimize_disk whitelist_paths now max_age_days
            delete_small_files removeOk files) :
    Optimizer.is_safe_path whitelist_paths p = true ∧
    ∃ r ∈ files, r.path = p ∧
      ∃ m, r.mtime = some m ∧ now - m ≥ max_age_days * 86400 := by
  unfold Optimizer.optimize_disk at hp
  rcases List.mem_map.mp hp with ⟨r, hr, rfl⟩
  rcases List.mem_filter.mp hr with ⟨hrf, hdec⟩
  unfold Optimizer.removeDecision at hdec
  rw [Bool.and_eq_true] at hdec
  obtain ⟨hsafe, hrest⟩ := hdec
  refine ⟨hsafe, r, hrf, rfl, ?_⟩
  cases hm : r.mtime with
  | none => rw [hm] at hrest; exact absurd hrest (by simp)
  | some m =>
    rw [hm, Bool.and_eq_true] at hrest
    refine ⟨m, rfl, ?_⟩
    have h1 := hrest.1
    simp only [Bool.not_eq_true', decide_eq_false_iff_not, not_lt] at h1
    exact h1

/-- Witness for C3 on a two-file temp walk where only the old unprotected
file is removed. -/
theorem C3_witness :
    str "/tmp/old.bin"
      ∈ Optimizer.optimize_disk [str "/", str "/etc"] 1000000 7 true (fun _ => true)
          [⟨str "/tmp/old.bin", some 0, some 4096⟩,
           ⟨str "/tmp/new.bin", some 999999, some 4096⟩] ∧
    Optimizer.is_safe_path [str "/", str "/etc"] (str "/tmp/old.bin") = true ∧
    (1000000 : Int) - 0 ≥ 7 * 86400 :=
  ⟨by decide,
   (C3_optimize_disk_safety [str "/", str "/etc"] 1000000 7 true (fun _ => true)
      [⟨str "/tmp/old.bin", some 0, some 4096⟩,
       ⟨str "/tmp/new.bin", some 999999, some 4096⟩]
      (str "/tmp/old.bin") (by decide)).1,
   by decide⟩

/-- Counterexample to C9 as stated: with size_threshold_bytes set to 0 (an
integer within the declared interface range), a 30 MiB old file in /tmp with
an extension in no category set gets no category, although the claim calls
for large: the Python truthiness test on size_threshold_bytes disables the
large-file fallback when the value is 0. -/
theorem C9_counterexample :
    Scanner.classify_file demoCfg 1000000 (some (0, 31457280)) (str "/tmp/big.dat")
      (some 86400) (some 0) = none ∧
    Scanner.is_under_whitelist demoCfg.whitelist_paths (str "/tmp/big.dat") = false ∧
    Scanner.ageGuard (some 86400) 1000000 0 = false ∧
    Scanner.suffixLower (str "/tmp/big.dat") ∉ potentially_dangerous_extensions ∧
    Scanner.suffixLower (str "/tmp/big.dat") ∉ suspicious_script_extensions ∧
    Scanner.suffixLower (str "/tmp/big.dat") ∉ junk_extensions ∧
    (31457280 : Int) ≥ max 0 (20 * 1024 * 1024) ∧
    Scanner.commonpath_eq (str "/tmp/big.dat") (str "/tmp") = true := by
  decide

/-- C9 amended: the large-file fallback applies when size_threshold_bytes is
set to a nonzero value t: a non-whitelisted, old-enough readable file whose
extension is in none of the three sets and whose size is at least
max(t, 20 MiB) is large inside download/temp, junk inside a browser cache,
and uncategorised elsewhere.  When size_threshold_bytes is unset or zero,
such a file gets no category. -/
theorem C9_amended_large_fallback :
    (∀ (cfg : Scanner.ScanConfig) (now mtime size : Int) (P : FPath)
        (age_seconds : Option Int) (t : Int),
      Scanner.is_under_whitelist cfg.whitelist_paths P = false →
      Scanner.ageGuard age_seconds now mtime = false →
      Scanner.suffixLower P ∉ potentially_dangerous_extensions →
      Scanner.suffixLower P ∉ suspicious_script_extensions →
      Scanner.suffixLower P ∉ junk_extensions →
      0 < t → size ≥ max t (20 * 1024 * 1024) →
      Scanner.classify_file cfg now (some (mtime, size)) P age_seconds (some t)
        = (if (cfg.download_dirs ++ cfg.temp_dirs).any (fun d => Scanner.commonpath_eq P d)
           then some "large"
           else if cfg.browser_cache_dirs.any (fun d => Scanner.commonpath_eq P d)
           then some "junk"
           else none)) ∧
    (∀ (cfg : Scanner.ScanConfig) (now mtime size : Int) (P : FPath)
        (age_seconds size_threshold_bytes : Option Int),
      Scanner.is_under_whitelist cfg.whitelist_paths P = false →
      Scanner.ageGuard age_seconds now mtime = false →
      Scanner.suffixLower P ∉ potentially_dangerous_extensions →
      Scanner.suffixLower P ∉ suspicious_script_extensions →
      Scanner.suffixLower P ∉ junk_extensions →
      Scanner.truthy size_threshold_bytes = false →
      Scanner.classify_file cfg now (some (mtime, size)) P age_seconds size_threshold_bytes
        = none) := by
  constructor
  · intro cfg now mtime size P age_seconds t hwl hage hd hs hj ht hsize
    have hguard : (Scanner.truthy (some t)
        && decide (size ≥ max ((some t).getD 0) (20 * 1024 * 1024))) = true := by
      simp only [Scanner.truthy, Option.getD_some, Bool.and_eq_true, decide_eq_true_eq]
      exact ⟨ht.ne', hsize⟩
    simp only [Scanner.classify_file, hwl, Bool.false_eq_true, if_false, hage]
    rw [if_neg hd, if_neg hs, if_neg hj, if_pos hguard]
  · intro cfg now mtime size P age_seconds size_threshold_bytes hwl hage hd hs hj hthr
    have hguard : ¬((Scanner.truthy size_threshold_bytes
        && decide (size ≥ max (size_threshold_bytes.getD 0) (20 * 1024 * 1024))) = true) := by
      simp [hthr]
    simp only [Scanner.classify_file, hwl, Bool.false_eq_true, if_false, hage]
    rw [if_neg hd, if_neg hs, if_neg hj, if_neg hguard]

/-- Witness for C9 amended: the same 30 MiB /tmp file is large with
threshold 1024 and uncategorised with threshold 0. -/
theorem C9_witness :
    Scanner.classify_file demoCfg 1000000 (some (0, 31457280)) (str "/tmp/big.bin")
      (some 86400) (some 1024) = some "large" ∧
    Scanner.classify_file demoCfg 1000000 (some (0, 31457280)) (str "/tmp/big.bin")
      (some 86400) (some 0) = none := by
  constructor
  · rw [C9_amended_large_fallback.1 demoCfg 1000000 0 31457280 (str "/tmp/big.bin")
      (some 86400) 1024 (by decide) (by decide) (by decide) (by decide) (by decide)
      (by decide) (by decide)]
    decide
  · exact C9_amended_large_fallback.2 demoCfg 1000000 0 31457280 (str "/tmp/big.bin")
      (some 86400) (some 0) (by decide) (by decide) (by decide) (by decide) (by decide)
      (by decide)

/-- Full characterisation of clean_paths in the fail-closed mode (no trash,
no dry-run, no force): nothing is removed, no results are produced, and
every path gets exactly the error its existence status dictates. -/
lemma clean_paths_fail_closed_eq (oc : Cleaner.RemovalOracle) (fs : List FPath) :
    ∀ paths : List FPath,
      Cleaner.clean_paths false oc false false fs paths =
        ([], paths.map (fun p =>
            (p, if fs.contains p then "send2trash_not_available" else "NotFound")), fs)
  | [] => rfl
  | p :: ps => by
    have ih := clean_paths_fail_closed_eq oc fs ps
    by_cases hm : p ∈ fs
    · have hc : fs.contains p = true := by simpa using hm
      simp [Cleaner.clean_paths, Cleaner.clean_step, hm, hc, ih]
    · have hc : fs.contains p = false := by simpa using hm
      simp [Cleaner.clean_paths, Cleaner.clean_step, hm, hc, ih]

/-- Full characterisation of clean_paths under dry_run: no mutation, every
existing path is reported with the intended action, every missing path gets
a NotFound error. -/
lemma clean_paths_dry_run_eq (use_trash : Bool) (oc : Cleaner.RemovalOracle)
    (force : Bool) (fs : List FPath) :
    ∀ paths : List FPath,
      Cleaner.clean_paths use_trash oc true force fs paths =
        ((paths.filter (fun p => fs.contains p)).map
            (fun p => (p, Cleaner.action_for use_trash force)),
         (paths.filter (fun p => !(fs.contains p))).map (fun p => (p, "NotFound")),
         fs)
  | [] => rfl
  | p :: ps => by
    have ih := clean_paths_dry_run_eq use_trash oc force fs ps
    by_cases hm : p ∈ fs
    · have hc : fs.contains p = true := by simpa using hm
      simp [Cleaner.clean_paths, Cleaner.clean_step, hm, hc, ih]
    · have hc : fs.contains p = false := by simpa using hm
      simp [Cleaner.clean_paths, Cleaner.clean_step, hm, hc, ih]

/-- C6: Disposal fails closed.  With dry_run false, no trash mechanism and
force false, clean_paths leaves the filesystem untouched, performs no
successful action, and reports send2trash_not_available for every path that
exists at execution time. -/
theorem C6_fails_closed (oc : Cleaner.RemovalOracle) (fs paths : List FPath) :
    (Cleaner.clean_paths false oc false false fs paths).2.2 = fs ∧
    (Cleaner.clean_paths false oc false false fs paths).1 = [] ∧
    ∀ p ∈ paths, fs.contains p = true →
      (p, "send2trash_not_available") ∈ (Cleaner.clean_paths false oc false false fs paths).2.1 := by
  rw [clean_paths_fail_closed_eq oc fs paths]
  refine ⟨rfl, rfl, fun p hp hc => ?_⟩
  exact List.mem_map.mpr ⟨p, hp, by rw [if_pos hc]⟩

/-- Witness for C6 on a two-path batch where only the first path exists. -/
theorem C6_witness :
    (Cleaner.clean_paths false ⟨fun _ => none, fun _ => none⟩ false false
        [str "/a"] [str "/a", str "/b"]).2.2 = [str "/a"] ∧
    (str "/a", "send2trash_not_available")
      ∈ (Cleaner.clean_paths false ⟨fun _ => none, fun _ => none⟩ false false
          [str "/a"] [str "/a", str "/b"]).2.1 :=
  ⟨(C6_fails_closed ⟨fun _ => none, fun _ => none⟩ [str "/a"] [str "/a", str "/b"]).1,
   (C6_fails_closed ⟨fun _ => none, fun _ => none⟩ [str "/a"] [str "/a", str "/b"]).2.2
     (str "/a") (by decide) (by decide)⟩

/-- C7: Dry-run disposal is non-destructive and reports intent.  For any
force flag and trash availability, clean_paths with dry_run true leaves the
filesystem unchanged (so every previously existing input path still exists)
and reports for each existing path the action it would receive: trashed if a
trash mechanism is available, else deleted if force is set, else
would_delete_but_no_trash. -/
theorem C7_dry_run_nondestructive (use_trash : Bool) (oc : Cleaner.RemovalOracle)
    (force : Bool) (fs paths : List FPath) :
    (Cleaner.clean_paths use_trash oc true force fs paths).2.2 = fs ∧
    ∀ p ∈ paths, fs.contains p = true →
      (p, if use_trash then "trashed" else if force then "deleted"
          else "would_delete_but_no_trash")
        ∈ (Cleaner.clean_paths use_trash oc true force fs paths).1 := by
  rw [clean_paths_dry_run_eq use_trash oc force fs paths]
  refine ⟨rfl, fun p hp hc => ?_⟩
  exact List.mem_map.mpr ⟨p, List.mem_filter.mpr ⟨hp, hc⟩, rfl⟩

/-- Witness for C7: with no trash and force unset, an existing path is
reported would_delete_but_no_trash and survives the dry run. -/
theorem C7_witness :
    (Cleaner.clean_paths false ⟨fun _ => none, fun _ => none⟩ true false
        [str "/a"] [str "/a"]).2.2 = [str "/a"] ∧
    (str "/a", "would_delete_but_no_trash")
      ∈ (Cleaner.clean_paths false ⟨fun _ => none, fun _ => none⟩ true false
          [str "/a"] [str "/a"]).1 :=
  ⟨(C7_dry_run_nondestructive false ⟨fun _ => none, fun _ => none⟩ false
      [str "/a"] [str "/a"]).1,
   (C7_dry_run_nondestructive false ⟨fun _ => none, fun _ => none⟩ false
      [str "/a"] [str "/a"]).2 (str "/a") (by decide) (by decide)⟩

/-- C10: every input path of clean_paths receives exactly one outcome: the
first components of results and errors together are a permutation of the
input list, and each of the two lists preserves the input order (is a
sublist of the input); this holds for every oracle, so a failing path never
stops the processing of the rest. -/
theorem C10_outcome_partition (use_trash : Bool) (oc : Cleaner.RemovalOracle)
    (dry_run force : Bool) :
    ∀ (paths fs : List FPath),
      List.Perm
        ((Cleaner.clean_paths use_trash oc dry_run force fs paths).1.map Prod.fst
          ++ (Cleaner.clean_paths use_trash oc dry_run force fs paths).2.1.map Prod.fst)
        paths ∧
      List.Sublist
        ((Cleaner.clean_paths use_trash oc dry_run force fs paths).1.map Prod.fst) paths ∧
      List.Sublist
        ((Cleaner.clean_paths use_trash oc dry_run force fs paths).2.1.map Prod.fst) paths
  | [], fs => ⟨List.Perm.refl _, List.nil_sublist _, List.nil_sublist _⟩
  | p :: ps, fs => by
    rcases hstep : Cleaner.clean_step use_trash oc dry_run force fs p with ⟨o, fs1⟩
    have ih := C10_outcome_partition use_trash oc dry_run force ps fs1
    rcases hrec : Cleaner.clean_paths use_trash oc dry_run force fs1 ps with ⟨r, e, fs2⟩
    rw [hrec] at ih
    cases o with
    | ok a =>
      have hout : Cleaner.clean_paths use_trash oc dry_run force fs (p :: ps)
          = ((p, a) :: r, e, fs2) := by
        simp [Cleaner.clean_paths, hstep, hrec]
      rw [hout]
      refine ⟨?_, ?_, ?_⟩
      · simpa using ih.1.cons p
      · exact List.Sublist.cons₂ p ih.2.1
      · exact List.Sublist.cons p ih.2.2
    | err m =>
      have hout : Cleaner.clean_paths use_trash oc dry_run force fs (p :: ps)
          = (r, (p, m) :: e, fs2) := by
        simp [Cleaner.clean_paths, hstep, hrec]
      rw [hout]
      refine ⟨?_, ?_, ?_⟩
      · simpa using List.perm_middle.trans (ih.1.cons p)
      · exact List.Sublist.cons p ih.2.1
      · exact List.Sublist.cons₂ p ih.2.2

/-- An existence oracle under which /lib64 does not exist (as on many Linux
installations). -/
def noLib64 (p : FPath) : Bool := p ≠ str "/lib64"

/-- Counterexample to C5 as stated: Scanner._get_whitelist_paths applies no
existence filter, so when /lib64 does not exist on disk the Scanner
whitelist still contains it, while the Optimizer whitelist (which does
filter by os.path.exists) drops it. -/
theorem C5_counterexample :
    str "/lib64" ∈ scanner_whitelist false ∧
    noLib64 (str "/lib64") = false ∧
    str "/lib64" ∉ optimizer_whitelist false noLib64 := by
  decide

/-- Every configured Unix whitelist literal is an absolute normalized
path. -/
lemma configured_whitelist_normalized (darwin : Bool) :
    ∀ p ∈ configured_unix_whitelist darwin, isNormalizedAbs p = true := by
  cases darwin <;> decide

/-- C5 amended: the Optimizer whitelist keeps exactly the configured paths
that exist at resolution time; the Scanner whitelist keeps every configured
path whether or not it exists (its construction drops only falsy entries,
and every Unix literal is non-empty); all entries of both sets are absolute
and normalized. -/
theorem C5_amended_whitelist_wellformed (darwin : Bool) (existsOn : FPath → Bool) :
    (∀ p ∈ optimizer_whitelist darwin existsOn, existsOn p = true) ∧
    (∀ p, p ∈ scanner_whitelist darwin ↔ p ∈ configured_unix_whitelist darwin) ∧
    (∀ p ∈ scanner_whitelist darwin, isNormalizedAbs p = true) ∧
    (∀ p ∈ optimizer_whitelist darwin existsOn, isNormalizedAbs p = true) := by
  have hscan : scanner_whitelist darwin = configured_unix_whitelist darwin := by
    cases darwin <;> decide
  refine ⟨fun p hp => (List.mem_filter.mp hp).2, fun p => by rw [hscan], ?_, ?_⟩
  · rw [hscan]; exact configured_whitelist_normalized darwin
  · exact fun p hp =>
      configured_whitelist_normalized darwin p (List.mem_filter.mp hp).1

/-- Witness for C5 amended at darwin = false, existence oracle noLib64,
path /etc. -/
theorem C5_witness :
    noLib64 (str "/etc") = true ∧
    (str "/etc" ∈ scanner_whitelist false ↔ str "/etc" ∈ configured_unix_whitelist false) ∧
    isNormalizedAbs (str "/etc") = true :=
  ⟨(C5_amended_whitelist_wellformed false noLib64).1 (str "/etc") (by decide),
   (C5_amended_whitelist_wellformed false noLib64).2.1 (str "/etc"),
   (C5_amended_whitelist_wellformed false noLib64).2.2.1 (str "/etc") (by decide)⟩

/-- lookupFound is unchanged by extending the association list when the key
is already present. -/
lemma lookupFound_append_isSome (fnd : Scanner.Found) (e : String × List FPath) (c : String)
    (h : (Scanner.lookupFound fnd c).isSome) :
    Scanner.lookupFound (fnd ++ [e]) c = Scanner.lookupFound fnd c := by
  unfold Scanner.lookupFound at h ⊢
  rw [List.find?_append]
  rcases hf : fnd.find? (fun e => e.1 == c) with _ | v
  · rw [hf] at h; simp at h
  · rw [hf]; rfl

/-- lookupFound is unchanged by ensureKey on keys that are already
present. -/
lemma lookupFound_ensureKey (fnd : Scanner.Found) (cat c : String)
    (h : (Scanner.lookupFound fnd c).isSome) :
    Scanner.lookupFound (Scanner.ensureKey fnd cat) c = Scanner.lookupFound fnd c := by
  unfold Scanner.ensureKey
  split
  · rfl
  · exact lookupFound_append_isSome fnd _ c h

/-- lookupFound after appendFound: the looked-up list gains the appended
element exactly on the appended key. -/
lemma lookupFound_appendFound (fnd : Scanner.Found) (cat : String) (x : FPath) (c : String) :
    Scanner.lookupFound (Scanner.appendFound fnd cat x) c =
      (Scanner.lookupFound fnd c).map (fun l => if c = cat then l ++ [x] else l) := by
  induction fnd with
  | nil => rfl
  | cons a t ih =>
    rcases a with ⟨k, v⟩
    by_cases h1 : k = cat <;> by_cases h2 : k = c <;>
      simp_all [Scanner.appendFound, Scanner.lookupFound, List.find?_cons, beq_iff_eq]

/-- Membership in the skipped list survives store_file, whatever category is
being stored. -/
lemma mem_skipped_store (category_limits : List (String × Int)) (fnd : Scanner.Found)
    (cat : String) (f x : FPath) (l : List FPath)
    (h : Scanner.lookupFound fnd "skipped" = some l) (hx : x ∈ l) :
    ∃ l', Scanner.lookupFound (Scanner.store_file category_limits fnd cat f) "skipped"
      = some l' ∧ x ∈ l' := by
  have hiso : (Scanner.lookupFound fnd "skipped").isSome := by rw [h]; rfl
  have he : Scanner.lookupFound (Scanner.ensureKey fnd cat) "skipped" = some l := by
    rw [lookupFound_ensureKey fnd cat _ hiso, h]
  unfold Scanner.store_file
  split
  · exact ⟨l, he, hx⟩
  · rw [lookupFound_appendFound, he]
    refine ⟨if "skipped" = cat then l ++ [f] else l, by simp, ?_⟩
    split <;> simp [hx]

/-- Storing a skipped file with no (truthy) skipped cap appends it to the
skipped list. -/
lemma store_skipped_self (category_limits : List (String × Int)) (fnd : Scanner.Found)
    (f : FPath) (l : List FPath)
    (h : Scanner.lookupFound fnd "skipped" = some l)
    (hlim : Scanner.truthy (Scanner.limFor category_limits "skipped") = false) :
    Scanner.lookupFound (Scanner.store_file category_limits fnd "skipped" f) "skipped"
      = some (l ++ [f]) := by
  have hiso : (Scanner.lookupFound fnd "skipped").isSome := by rw [h]; rfl
  have he : Scanner.ensureKey fnd "skipped" = fnd := by
    unfold Scanner.ensureKey; rw [if_pos hiso]
  have hcap : Scanner.capReached category_limits (Scanner.ensureKey fnd "skipped") "skipped"
      = false := by
    rw [he]; unfold Scanner.capReached
    cases hl : Scanner.limFor category_limits "skipped" with
    | none => rfl
    | some v =>
      have hv : v = 0 := by
        unfold Scanner.truthy at hlim; rw [hl] at hlim; simpa using hlim
      subst hv; simp
  unfold Scanner.store_file
  rw [hcap]
  simp only [Bool.false_eq_true, if_false]
  rw [lookupFound_appendFound, he, h]
  simp

/-- store_file keeps every already-present key present. -/
lemma lookupFound_isSome_store (category_limits : List (String × Int)) (fnd : Scanner.Found)
    (cat : String) (f : FPath) (c : String) (h : (Scanner.lookupFound fnd c).isSome) :
    (Scanner.lookupFound (Scanner.store_file category_limits fnd cat f) c).isSome := by
  have he : Scanner.lookupFound (Scanner.ensureKey fnd cat) c = Scanner.lookupFound fnd c :=
    lookupFound_ensureKey fnd cat c h
  rcases Option.isSome_iff_exists.mp h with ⟨v, hv⟩
  unfold Scanner.store_file
  split
  · rw [he]; exact h
  · rw [lookupFound_appendFound, he, hv]; rfl

/-- Membership in the skipped list survives collect_file. -/
lemma mem_skipped_collect (cfg : Scanner.ScanConfig) (now : Int)
    (statOf : FPath → Option (Int × Int)) (age_seconds size_threshold_bytes : Option Int)
    (category_limits : List (String × Int)) (fnd : Scanner.Found) (f' x : FPath)
    (l : List FPath)
    (h : Scanner.lookupFound fnd "skipped" = some l) (hx : x ∈ l) :
    ∃ l', Scanner.lookupFound
        (Scanner.collect_file cfg now statOf age_seconds size_threshold_bytes category_limits fnd f')
        "skipped" = some l' ∧ x ∈ l' := by
  rcases hcl : Scanner.classify_file cfg now (statOf f') f' age_seconds size_threshold_bytes
    with _ | cat <;> simp only [Scanner.collect_file, hcl]
  · exact ⟨l, h, hx⟩
  · exact mem_skipped_store category_limits fnd cat f' x l h hx

/-- collect_file keeps every already-present key present. -/
lemma lookupFound_isSome_collect (cfg : Scanner.ScanConfig) (now : Int)
    (statOf : FPath → Option (Int × Int)) (age_seconds size_threshold_bytes : Option Int)
    (category_limits : List (String × Int)) (fnd : Scanner.Found) (f' : FPath) (c : String)
    (h : (Scanner.lookupFound fnd c).isSome) :
    (Scanner.lookupFound
        (Scanner.collect_file cfg now statOf age_seconds size_threshold_bytes category_limits fnd f')
        c).isSome := by
  rcases hcl : Scanner.classify_file cfg now (statOf f') f' age_seconds size_threshold_bytes
    with _ | cat <;> simp only [Scanner.collect_file, hcl]
  · exact h
  · exact lookupFound_isSome_store category_limits fnd cat f' c h

/-- Membership in the skipped list survives a whole collection fold. -/
lemma mem_skipped_foldl (cfg : Scanner.ScanConfig) (now : Int)
    (statOf : FPath → Option (Int × Int)) (age_seconds size_threshold_bytes : Option Int)
    (category_limits : List (String × Int)) :
    ∀ (vs : List FPath) (fnd : Scanner.Found) (l : List FPath) (x : FPath),
      Scanner.lookupFound fnd "skipped" = some l → x ∈ l →
      ∃ l', Scanner.lookupFound
          (vs.foldl (Scanner.collect_file cfg now statOf age_seconds size_threshold_bytes
            category_limits) fnd) "skipped" = some l' ∧ x ∈ l'
  | [], _, l, _, h, hx => ⟨l, h, hx⟩
  | v :: vs, fnd, l, x, h, hx => by
    obtain ⟨l1, h1, hx1⟩ := mem_skipped_collect cfg now statOf age_seconds
      size_threshold_bytes category_limits fnd v x l h hx
    simpa [List.foldl_cons] using mem_skipped_foldl cfg now statOf age_seconds
      size_threshold_bytes category_limits vs _ l1 x h1 hx1

/-- A visited file classified skipped lands in the skipped list of the
collection fold, when the skipped category carries no truthy cap. -/
lemma mem_skipped_foldl_self (cfg : Scanner.ScanConfig) (now : Int)
    (statOf : FPath → Option (Int × Int)) (age_seconds size_threshold_bytes : Option Int)
    (category_limits : List (String × Int))
    (hlim : Scanner.truthy (Scanner.limFor category_limits "skipped") = false) :
    ∀ (vs : List FPath) (fnd : Scanner.Found) (l : List FPath) (f : FPath),
      Scanner.lookupFound fnd "skipped" = some l → f ∈ vs →
      Scanner.classify_file cfg now (statOf f) f age_seconds size_threshold_bytes
        = some "skipped" →
      ∃ l', Scanner.lookupFound
          (vs.foldl (Scanner.collect_file cfg now statOf age_seconds size_threshold_bytes
            category_limits) fnd) "skipped" = some l' ∧ f ∈ l'
  | v :: vs, fnd, l, f, h, hmem, hcl => by
    rcases List.mem_cons.mp hmem with rfl | hmem'
    · have hstep : Scanner.lookupFound
          (Scanner.collect_file cfg now statOf age_seconds size_threshold_bytes
            category_limits fnd f) "skipped" = some (l ++ [f]) := by
        simp only [Scanner.collect_file, hcl]
        exact store_skipped_self category_limits fnd f l h hlim
      simpa [List.foldl_cons] using mem_skipped_foldl cfg now statOf age_seconds
        size_threshold_bytes category_limits vs _ (l ++ [f]) f hstep (by simp)
    · have hs : (Scanner.lookupFound
          (Scanner.collect_file cfg now statOf age_seconds size_threshold_bytes
            category_limits fnd v) "skipped").isSome :=
        lookupFound_isSome_collect cfg now statOf age_seconds size_threshold_bytes
          category_limits fnd v "skipped" (by rw [h]; rfl)
      obtain ⟨l1, h1⟩ := Option.isSome_iff_exists.mp hs
      simpa [List.foldl_cons] using mem_skipped_foldl_self cfg now statOf age_seconds
        size_threshold_bytes category_limits hlim vs _ l1 f h1 hmem' hcl

/-- A scan setup whose whitelist protects the subtree /tmp/p while /tmp
itself is walked: one folder /tmp containing the protected subdirectory p
with one log file inside it. -/
def c2Cfg : Scanner.ScanConfig where
  whitelist_paths := [str "/tmp/p"]
  temp_dirs := [str "/tmp"]
  browser_cache_dirs := []
  download_dirs := []

def c2Folders : List (FPath × List Scanner.FSTree) :=
  [(str "/tmp", [Scanner.FSTree.dir (str "p") [Scanner.FSTree.file (str "a.log")]])]

def c2Stat : FPath → Option (Int × Int) := fun _ => some (0, 2048)

lemma c2_visited : Scanner.visitedFiles c2Folders = [str "/tmp/p/a.log"] := by
  simp [Scanner.visitedFiles, c2Folders, Scanner.walkTree,
    Scanner.walkSubdirs, Scanner.directFiles, str]

/-- Counterexample to C2 as stated: the walk of scan_all descends into a
subtree whose root is a whitelist entry.  The file /tmp/p/a.log lies under
the whitelist entry /tmp/p, yet it is among the files _walk_and_collect
visits (os.walk is never pruned, scanner.py line 210), and it ends up
individually classified and stored in the skipped list. -/
theorem C2_counterexample :
    Scanner.is_under_whitelist c2Cfg.whitelist_paths (str "/tmp/p/a.log") = true ∧
    str "/tmp/p/a.log" ∈ Scanner.visitedFiles c2Folders ∧
    Scanner.lookupFound
        (Scanner.walk_and_collect c2Cfg 1000000 c2Stat (some 86400) (some 1024) [] c2Folders)
        "skipped" = some [str "/tmp/p/a.log"] := by
  refine ⟨by decide, ?_, ?_⟩
  · rw [c2_visited]; decide
  · unfold Scanner.walk_and_collect
    rw [c2_visited]
    decide

/-- C2 amended: traversal does descend into whitelisted subtrees.  Every
file the walk reaches is visited and classified; a visited file under the
whitelist whose metadata is readable is classified skipped and, when the
skipped category carries no truthy cap, is stored in the report's skipped
list (rather than the subtree being left unvisited). -/
theorem C2_amended_descends_into_whitelisted (cfg : Scanner.ScanConfig) (now : Int)
    (statOf : FPath → Option (Int × Int)) (age_seconds size_threshold_bytes : Option Int)
    (category_limits : List (String × Int)) (folders : List (FPath × List Scanner.FSTree))
    (f : FPath) (mtime size : Int)
    (hvisit : f ∈ Scanner.visitedFiles folders)
    (hwl : Scanner.is_under_whitelist cfg.whitelist_paths f = true)
    (hstat : statOf f = some (mtime, size))
    (hlim : Scanner.truthy (Scanner.limFor category_limits "skipped") = false) :
    ∃ l, Scanner.lookupFound
        (Scanner.walk_and_collect cfg now statOf age_seconds size_threshold_bytes
          category_limits folders) "skipped" = some l ∧ f ∈ l := by
  unfold Scanner.walk_and_collect
  refine mem_skipped_foldl_self cfg now statOf age_seconds size_threshold_bytes
    category_limits hlim (Scanner.visitedFiles folders) Scanner.initFound [] f rfl hvisit ?_
  rw [hstat]
  exact classify_whitelisted cfg now mtime size f age_seconds size_threshold_bytes hwl

/-- Witness for C2 amended on the concrete protected-subtree scan. -/
theorem C2_witness :
    str "/tmp/p/a.log" ∈ Scanner.visitedFiles c2Folders ∧
    ∃ l, Scanner.lookupFound
        (Scanner.walk_and_collect c2Cfg 5 c2Stat none none [] c2Folders)
        "skipped" = some l ∧ str "/tmp/p/a.log" ∈ l := by
  have hv : str "/tmp/p/a.log" ∈ Scanner.visitedFiles c2Folders := by
    rw [c2_visited]; decide
  exact ⟨hv, C2_amended_descends_into_whitelisted c2Cfg 5 c2Stat none none [] c2Folders
    (str "/tmp/p/a.log") 0 2048 hv (by decide) rfl rfl⟩

example : Scanner.suffixLower (str "/home/user/Downloads/Setup.EXE") = str ".exe" := by decide
example : Scanner.suffixLower (str "/tmp/.bashrc") = str "" := by decide
example : Scanner.suffixLower (str "/tmp/a.tar.gz") = str ".gz" := by decide
example : Scanner.suffixLower (str "/tmp/noext") = str "" := by decide
example : Scanner.classify_file demoCfg 200000 (some (0, 2048)) (str "/tmp/app.tmp")
    (some 86400) (some 1024) = some "junk" := by decide
example : Scanner.classify_file demoCfg 200000 (some (0, 2048)) (str "/etc/hosts")
    (some 86400) (some 1024) = some "skipped" := by decide
example : Scanner.classify_file demoCfg 864000 (some (0, 2048))
    (str "/home/user/Downloads/setup.exe") (some 86400) (some 1024) = some "harmful" := by decide
example : Scanner.classify_file demoCfg 864000 (some (0, 2048))
    (str "/opt/tools/setup.exe") (some 86400) (some 1024) = some "skipped" := by decide

end BoostBox
